import Mathlib

/-!
XPT2046 touch panel on a shared SPI bus (`Lab2B_app/src/touch.c`).

A shallow embedding of the touch sampler, the coordinate mapper, the display
presenter and one pass of the polling loop, followed by the properties proved
about them.

Conventions of the embedding:

* `uint8_t`, `uint16_t` and `u32` values are natural numbers, reduced modulo
  `2^8`, `2^16`, `2^32` where the C code stores them.
* `int` is the 32-bit two's-complement `int` of the target.  The only `int`
  computation that can leave the range is the product in
  `map_touch_to_screen`; it is reduced with `wrap32` (ISO C leaves that case
  undefined, the 32-bit multiplier wraps).
* The SPI driver, the LCD library, `usleep` and the print routines are
  external.  Every call to them is recorded as an `Event` in the `trace` of a
  `World`; what the driver answers is read from an `Env`.
-/

namespace XPT2046

/-! ## Constants -/

/-- Command to read X-coordinate. -/
def CMD_READ_X : Nat := 0xD0

/-- Command to read Y-coordinate. -/
def CMD_READ_Y : Nat := 0x90

/-- Command to read Z1 (pressure). -/
def CMD_READ_Z1 : Nat := 0xB0

/-- Command to read Z2 (pressure). -/
def CMD_READ_Z2 : Nat := 0xC0

def SCREEN_WIDTH : Nat := 240

def SCREEN_HEIGHT : Nat := 320

/-- Calibration bound: raw value at top-left. -/
def x_min : Nat := 180

/-- Calibration bound: raw value at bottom-right. -/
def x_max : Nat := 1800

/-- Calibration bound: raw value at top-left. -/
def y_min : Nat := 200

/-- Calibration bound: raw value at bottom-right. -/
def y_max : Nat := 1900

/-- The macros of `xspi.h`, `xspi_l.h` and `xstatus.h` that the program uses.
The headers belong to the Xilinx board support package, not to this
repository, so the values are a parameter of the embedding. -/
structure XspiConsts where
  XST_SUCCESS : Int
  XSP_MASTER_OPTION : Nat
  XSP_MANUAL_SSELECT_OPTION : Nat
  XSP_CR_ENABLE_MASK : Nat
  XSP_CR_MASTER_MODE_MASK : Nat
  XSP_CR_TRANS_INHIBIT_MASK : Nat

/-- The values the Xilinx headers give to the macros; used for concrete runs. -/
def xilinx : XspiConsts where
  XST_SUCCESS := 0
  XSP_MASTER_OPTION := 0x1
  XSP_MANUAL_SSELECT_OPTION := 0x10
  XSP_CR_ENABLE_MASK := 0x2
  XSP_CR_MASTER_MODE_MASK := 0x4
  XSP_CR_TRANS_INHIBIT_MASK := 0x100

/-! ## Machine arithmetic -/

/-- Reduction of an integer to the 32-bit two's-complement range of `int`. -/
def wrap32 (z : Int) : Int := (z + 2147483648) % 4294967296 - 2147483648

/-- Conversion of an `int` to `uint16_t`. -/
def toU16 (z : Int) : Nat := (z % 65536).toNat

/-- Bitwise complement as it reaches a 32-bit register: `~v`. -/
def bnot32 (v : Nat) : Nat := 4294967295 - v % 4294967296

/-- An operation of the C program that has no defined result.  The source
contains no check and prints no diagnostic on the way to it. -/
inductive Fault where
  | undefined_division_by_zero
deriving DecidableEq, Repr

instance instDecidableEqExcept {ε α : Type} [DecidableEq ε] [DecidableEq α] :
    DecidableEq (Except ε α)
  | Except.ok a, Except.ok b =>
    if h : a = b then isTrue (by rw [h]) else isFalse (fun h2 => h (Except.ok.inj h2))
  | Except.error a, Except.error b =>
    if h : a = b then isTrue (by rw [h]) else isFalse (fun h2 => h (Except.error.inj h2))
  | Except.ok _, Except.error _ => isFalse (fun h => nomatch h)
  | Except.error _, Except.ok _ => isFalse (fun h => nomatch h)

/-! ## Coordinate mapper -/

/-- The function `map_touch_to_screen` (touch.c, lines 329-337): the two clamps, then
`(raw - raw_min) * screen_size / (raw_max - raw_min)` evaluated in `int`
(the `uint16_t` operands are promoted), truncating division, and the
conversion of the quotient to the `uint16_t` return type.  The function
performs the division whatever the divisor is. -/
def map_touch_to_screen (raw raw_min raw_max screen_size : Nat) : Except Fault Nat :=
  let raw := if raw < raw_min then raw_min else raw
  let raw := if raw > raw_max then raw_max else raw
  let num : Int := wrap32 (((raw : Int) - (raw_min : Int)) * (screen_size : Int))
  let den : Int := (raw_max : Int) - (raw_min : Int)
  if den = 0 then Except.error Fault.undefined_division_by_zero
  else Except.ok (toU16 (Int.tdiv num den))

/-! ## The external world -/

/-- One call the program makes to an external routine, with its arguments. -/
inductive Event where
  /-- Call `XSpi_SetSlaveSelect(&spi, mask)`. -/
  | SetSlaveSelect (mask : Nat)
  /-- Call `XSpi_SetSlaveSelectReg(&spi, value)`: a write of the slave-select register. -/
  | SetSlaveSelectReg (value : Nat)
  /-- Call `usleep(us)`. -/
  | Usleep (us : Nat)
  /-- Call `XSpi_Transfer(&spi, tx_buf, rx_buf, len)` with the bytes of `tx_buf`. -/
  | Transfer (tx_buf : List Nat) (len : Nat)
  /-- Call `XSpi_Reset(&spi)`. -/
  | Reset
  /-- Call `XSpi_SetOptions(&spi, options)`. -/
  | SetOptions (options : Nat)
  /-- Call `XSpi_GetControlReg(&spi)`. -/
  | GetControlReg
  /-- Call `XSpi_SetControlReg(&spi, value)`. -/
  | SetControlReg (value : Nat)
  /-- Call `XSpi_Start(&spi)`. -/
  | Start
  /-- Call `XSpi_IntrGlobalDisable(&spi)`. -/
  | IntrGlobalDisable
  /-- Call `setColor(r, g, b)` of the LCD library. -/
  | SetColor (r g b : Nat)
  /-- Call `setColorBg(r, g, b)` of the LCD library. -/
  | SetColorBg (r g b : Nat)
  /-- Call `fillRect(x1, y1, x2, y2)` of the LCD library. -/
  | FillRect (x1 y1 x2 y2 : Nat)
  /-- Call `lcdPrint(text, x, y)` of the LCD library. -/
  | LcdPrint (text : String) (x y : Nat)
  /-- Call `xil_printf(format, args...)`. -/
  | XilPrintf (format : String) (args : List Int)
  /-- Call `printf(format, args...)`. -/
  | Printf (format : String) (args : List Int)
deriving DecidableEq, Repr

/-- What `XSpi_Transfer` hands back: its status and the three bytes it left in
the receive buffer. -/
structure Reply where
  status : Int
  rx0 : Nat
  rx1 : Nat
  rx2 : Nat
deriving DecidableEq, Repr

/-- The answers of the SPI driver: the reply to the n-th `XSpi_Transfer`, the
status of the n-th `XSpi_SetOptions`, the value read by the n-th
`XSpi_GetControlReg`. -/
structure Env where
  transfer : Nat → Reply
  setOptions : Nat → Int
  controlReg : Nat → Nat

/-- The calls made so far and how many answers of each kind were consumed. -/
structure World where
  trace : List Event
  transfers : Nat
  setopts : Nat
  ctrlreads : Nat
deriving DecidableEq, Repr

/-- Record one external call. -/
def emit (e : Event) (w : World) : World :=
  { w with trace := w.trace ++ [e] }

/-! ## Touch sampler -/

/-- The function `read_touch` (touch.c, lines 284-307).  The frame is `{command, 0, 0}`; on
a status other than `XST_SUCCESS` the function prints and returns 0 at once;
otherwise it writes `~0x00` to the slave-select register, waits and returns
`((rx_buf[1] << 8) | rx_buf[2]) >> 4` as a `uint16_t`. -/
def read_touch (k : XspiConsts) (env : Env) (command : Nat) (w : World) : Nat × World :=
  let tx_buf : List Nat := [command % 256, 0x00, 0x00]
  let w := emit (Event.SetSlaveSelect 0x02) w
  let w := emit (Event.Usleep 3000) w
  let r := env.transfer w.transfers
  let w := { emit (Event.Transfer tx_buf 3) w with transfers := w.transfers + 1 }
  let rx_buf1 := r.rx1 % 256
  let rx_buf2 := r.rx2 % 256
  let status := r.status
  if status ≠ k.XST_SUCCESS then
    (0, emit (Event.XilPrintf "SPI Transfer failed! Status = %d\r\n" [status]) w)
  else
    let w := emit (Event.SetSlaveSelectReg (bnot32 0x00)) w
    let w := emit (Event.Usleep 3000) w
    let result := (((rx_buf1 <<< 8) ||| rx_buf2) >>> 4) % 65536
    (result, w)

/-- The function `configSpi` (touch.c, lines 193-219).  When `XSpi_SetOptions`
does not return `XST_SUCCESS` it prints and returns at once. -/
def configSpi (k : XspiConsts) (env : Env) (w : World) : World :=
  let status := env.setOptions w.setopts
  let w := { emit (Event.SetOptions (k.XSP_MASTER_OPTION ||| k.XSP_MANUAL_SSELECT_OPTION)) w
             with setopts := w.setopts + 1 }
  if status ≠ k.XST_SUCCESS then
    emit (Event.XilPrintf "Failed to set SPI options\n" []) w
  else
    let controlReg := env.controlReg w.ctrlreads % 4294967296
    let w := { emit Event.GetControlReg w with ctrlreads := w.ctrlreads + 1 }
    let w := emit (Event.SetControlReg
      ((controlReg ||| k.XSP_CR_ENABLE_MASK ||| k.XSP_CR_MASTER_MODE_MASK) &&&
        bnot32 k.XSP_CR_TRANS_INHIBIT_MASK)) w
    let w := emit Event.Start w
    emit Event.IntrGlobalDisable w

/-- The function `get_touch_coordinates` (touch.c, lines 310-317): returns `(*x, *y)` and
the world. -/
def get_touch_coordinates (k : XspiConsts) (env : Env) (w : World) : Nat × Nat × World :=
  let (x, w) := read_touch k env CMD_READ_X w
  let (y, w) := read_touch k env CMD_READ_Y w
  let w := emit Event.Reset w
  (x, y, configSpi k env w)

/-- The function `is_touched` (touch.c, lines 320-326): returns the truth value of
`*z1 > 10 && *z2 < 2000`, then `*z1`, `*z2` and the world. -/
def is_touched (k : XspiConsts) (env : Env) (w : World) : Bool × Nat × Nat × World :=
  let (z1, w) := read_touch k env CMD_READ_Z1 w
  let (z2, w) := read_touch k env CMD_READ_Z2 w
  (decide (z1 > 10) && decide (z2 < 2000), z1, z2, w)

/-! ## Display presenter -/

/-- The text `sprintf(buffer, "<label>%d", value)` leaves in `buffer`. -/
def sprintf_d (label : String) (value : Nat) : String :=
  label ++ toString value

/-- The function `printToScr` (touch.c, lines 222-262), with the calibration
bounds and the screen size compiled into the program.  A fault of the mapper
leaves the rest of the call without meaning. -/
def printToScr (k : XspiConsts) (env : Env) (x y : Nat) (w : World) : Except Fault World := do
  let w := emit (Event.SetSlaveSelectReg (bnot32 0x01)) w
  let screen_x ← map_touch_to_screen x x_min x_max SCREEN_WIDTH
  let screen_y ← map_touch_to_screen y y_min y_max SCREEN_HEIGHT
  let w := emit (Event.SetColor 0 0 0) w
  let w := emit (Event.FillRect 10 10 150 40) w
  let w := emit (Event.SetColor 0 255 0) w
  let w := emit (Event.SetColorBg 0 0 0) w
  let w := emit (Event.LcdPrint (sprintf_d "X: " screen_x) 20 20) w
  let w := emit (Event.SetColor 0 0 0) w
  let w := emit (Event.FillRect 40 40 150 60) w
  let w := emit (Event.SetColor 0 255 0) w
  let w := emit (Event.SetColorBg 0 0 0) w
  let w := emit (Event.LcdPrint (sprintf_d "Y: " screen_y) 20 40) w
  let w := emit Event.Reset w
  pure (configSpi k env w)

/-! ## Polling loop -/

/-- The locals `x`, `y`, `z1`, `z2` of `main`. -/
structure Locals where
  x : Nat
  y : Nat
  z1 : Nat
  z2 : Nat
deriving DecidableEq, Repr

/-- One pass through the body of `while (1)` in `main` (touch.c, lines 119-128). -/
def main_loop_body (k : XspiConsts) (env : Env) (l : Locals) (w : World) :
    Except Fault (Locals × World) :=
  let (touched, z1, z2, w) := is_touched k env w
  let l := { l with z1 := z1, z2 := z2 }
  if touched then
    let (x, y, w) := get_touch_coordinates k env w
    let l := { l with x := x, y := y }
    let w := emit (Event.Printf "Touch detected: X = %d, Y = %d, Z1 = %d, Z2 = %d\n"
      [(x : Int), (y : Int), (z1 : Int), (z2 : Int)]) w
    do
      let w ← printToScr k env x y w
      pure (l, w)
  else
    pure (l, emit (Event.Printf "No touch detected.\n" []) w)

/-! ## Vocabulary of the statements -/

/-- The sample `read_touch` delivers for a reply of the driver. -/
def sample_of (k : XspiConsts) (r : Reply) : Nat :=
  if r.status = k.XST_SUCCESS then (((r.rx1 % 256) <<< 8) ||| (r.rx2 % 256)) >>> 4 else 0

/-- The calls to the LCD library. -/
def is_lcd_call : Event → Bool
  | Event.SetColor _ _ _ => true
  | Event.SetColorBg _ _ _ => true
  | Event.FillRect _ _ _ _ => true
  | Event.LcdPrint _ _ _ => true
  | _ => false

/-- The calls with which an operation against a peripheral begins: the
transfer of a touch-controller exchange, and the selection of the LCD that
opens a display update. -/
def starts_operation : Event → Bool
  | Event.Transfer _ _ => true
  | Event.SetSlaveSelectReg v => v == bnot32 0x01
  | _ => false

/-- The discipline "every operation is followed by `XSpi_Reset` and
`configSpi` (whose first call is `XSpi_SetOptions`) before the next operation
begins", checked along a trace.  The flag says that an operation has begun and
no reset-and-reconfigure cycle has followed it yet. -/
def reset_discipline : Bool → List Event → Bool
  | _, [] => true
  | _, Event.Reset :: Event.SetOptions _ :: es => reset_discipline false es
  | pending, e :: es =>
    if starts_operation e then !pending && reset_discipline true es
    else reset_discipline pending es

/-- The LCD calls of a display update with the values `sx`, `sy`. -/
def lcd_calls (sx sy : Nat) : List Event :=
  [Event.SetColor 0 0 0, Event.FillRect 10 10 150 40, Event.SetColor 0 255 0,
    Event.SetColorBg 0 0 0, Event.LcdPrint (sprintf_d "X: " sx) 20 20,
    Event.SetColor 0 0 0, Event.FillRect 40 40 150 60, Event.SetColor 0 255 0,
    Event.SetColorBg 0 0 0, Event.LcdPrint (sprintf_d "Y: " sy) 20 40]

/-- The clamp of the specification: `raw_min` below the range, `raw_max` above
it, `raw` itself inside. -/
def clamp (raw raw_min raw_max : Nat) : Nat :=
  if raw < raw_min then raw_min else if raw > raw_max then raw_max else raw

/-! ## Concrete worlds -/

/-- The world before any call. -/
def w0 : World := { trace := [], transfers := 0, setopts := 0, ctrlreads := 0 }

/-- A reply with status `XST_SUCCESS` of `xilinx` whose bytes encode the
12-bit sample `v`. -/
def reply_of_sample (v : Nat) : Reply :=
  { status := 0, rx0 := 0, rx1 := v / 16 % 256, rx2 := v % 16 * 16 }

/-- A driver that answers the transfers, in order, with the given samples
(then with 0), and accepts every `XSpi_SetOptions`. -/
def env_of_samples (vs : List Nat) : Env :=
  { transfer := fun n => reply_of_sample (vs.getD n 0)
    setOptions := fun _ => 0
    controlReg := fun _ => 0 }

/-- A driver whose every transfer fails with status 21 and leaves the bytes
`0xAB 0xCD 0xEF` in the receive buffer. -/
def env_failing : Env :=
  { transfer := fun _ => { status := 21, rx0 := 0xAB, rx1 := 0xCD, rx2 := 0xEF }
    setOptions := fun _ => 0
    controlReg := fun _ => 0 }

/-! ## Machine arithmetic: lemmas -/

theorem wrap32_of_small (z : Int) (h0 : 0 ≤ z) (h1 : z < 2147483648) : wrap32 z = z := by
  unfold wrap32
  omega

theorem wrap32_of_large (z : Int) (h0 : 2147483648 ≤ z) (h1 : z < 4294967296) :
    wrap32 z = z - 4294967296 := by
  unfold wrap32
  omega

theorem toU16_natCast (n : Nat) (h : n < 65536) : toU16 (n : Int) = n := by
  unfold toU16
  omega

theorem toU16_neg_natCast (q : Nat) (h0 : 0 < q) (h1 : q ≤ 65536) :
    toU16 (-(q : Int)) = 65536 - q := by
  unfold toU16
  omega

/-! ## Coordinate mapper: lemmas -/

/-- With a valid calibration pair the function returns the converted quotient
of the wrapped product over the clamped sample. -/
theorem map_unfold (raw raw_min raw_max S : Nat) (h : raw_min < raw_max) :
    map_touch_to_screen raw raw_min raw_max S =
      Except.ok (toU16 (Int.tdiv
        (wrap32 (((clamp raw raw_min raw_max - raw_min : Nat) : Int) * (S : Int)))
        ((raw_max - raw_min : Nat) : Int))) := by
  have hden : ¬ ((raw_max : Int) - (raw_min : Int) = 0) := by omega
  have hc1 : raw_min ≤ clamp raw raw_min raw_max := by
    unfold clamp
    split_ifs <;> omega
  have hcl : (if (if raw < raw_min then raw_min else raw) > raw_max then raw_max
      else (if raw < raw_min then raw_min else raw)) = clamp raw raw_min raw_max := by
    unfold clamp
    split_ifs <;> omega
  simp only [map_touch_to_screen, hcl, if_neg hden]
  rw [Nat.cast_sub hc1, Nat.cast_sub (le_of_lt h)]

theorem clamp_sub_le (raw raw_min raw_max : Nat) (h : raw_min < raw_max) :
    clamp raw raw_min raw_max - raw_min ≤ raw_max - raw_min := by
  unfold clamp
  split_ifs <;> omega

/-- The quotient when the product fits in `int`. -/
theorem quot_small (x d S : Nat) (hS : S < 65536) (hxd : x ≤ d)
    (hp : x * S < 2147483648) :
    toU16 (Int.tdiv (wrap32 ((x : Int) * (S : Int))) (d : Int)) = x * S / d := by
  have h1 : ((x : Int) * (S : Int)) = ((x * S : Nat) : Int) := by push_cast; ring
  rw [h1, wrap32_of_small _ (by positivity) (by exact_mod_cast hp), ← Int.ofNat_tdiv]
  apply toU16_natCast
  have : x * S / d ≤ S := by
    apply Nat.div_le_of_le_mul
    exact Nat.mul_le_mul_right S hxd
  omega

/-- The quotient when the product leaves the range of `int`: it is
`65536 - (2^32 - x * S) / d`, strictly below `S`. -/
theorem quot_large (x d S : Nat) (hS : S < 65536) (hxd : x ≤ d) (hd : d < 65536)
    (hp : 2147483648 ≤ x * S) :
    toU16 (Int.tdiv (wrap32 ((x : Int) * (S : Int))) (d : Int)) =
        65536 - (4294967296 - x * S) / d ∧
      toU16 (Int.tdiv (wrap32 ((x : Int) * (S : Int))) (d : Int)) < S := by
  have hx : 32768 < x := by
    by_contra hc
    have : x * S ≤ 32768 * 65535 := Nat.mul_le_mul (by omega) (by omega)
    omega
  have hpS : x * S ≤ d * S := Nat.mul_le_mul_right S hxd
  have hdS : d * S ≤ 65535 * S := Nat.mul_le_mul_right S (by omega)
  have hp2 : x * S < 4294967296 := by
    have : 65535 * S ≤ 65535 * 65535 := Nat.mul_le_mul_left 65535 (by omega)
    omega
  have h1 : ((x : Int) * (S : Int)) = ((x * S : Nat) : Int) := by push_cast; ring
  have h2 : wrap32 ((x : Int) * (S : Int)) = -((4294967296 - x * S : Nat) : Int) := by
    rw [h1, wrap32_of_large _ (by exact_mod_cast hp) (by exact_mod_cast hp2)]
    omega
  have hq0 : 0 < (4294967296 - x * S) / d := by
    apply Nat.div_pos
    · have : d * S ≤ 65535 * 65535 := le_trans hdS (Nat.mul_le_mul_left 65535 (by omega))
      omega
    · omega
  have hq1 : (4294967296 - x * S) / d < 65536 := by
    apply Nat.div_lt_of_lt_mul
    have : 32769 * 65536 ≤ d * 65536 := Nat.mul_le_mul_right 65536 (by omega)
    omega
  have hq2 : 65537 - S ≤ (4294967296 - x * S) / d := by
    rw [Nat.le_div_iff_mul_le (by omega)]
    have e1 : (65537 - S) * d + S * d = 65537 * d := by
      have e0 : 65537 - S + S = 65537 := by omega
      rw [← Nat.add_mul, e0]
    have e2 : S * d = d * S := Nat.mul_comm S d
    omega
  have hval : toU16 (Int.tdiv (wrap32 ((x : Int) * (S : Int))) (d : Int)) =
      65536 - (4294967296 - x * S) / d := by
    rw [h2, Int.neg_tdiv, ← Int.ofNat_tdiv]
    exact toU16_neg_natCast _ hq0 (le_of_lt hq1)
  refine ⟨hval, ?_⟩
  rw [hval]
  omega

/-! ## Coordinate mapper: properties -/

/-- C1, as stated, fails: at `raw = raw_max` (1800 with the X calibration and
the 240-pixel width) the function returns the screen size itself, 240, which
is not strictly below 240. -/
theorem map_touch_to_screen_reaches_screen_size :
    map_touch_to_screen 1800 180 1800 240 = Except.ok 240 ∧
      ¬ ∃ v, map_touch_to_screen 1800 180 1800 240 = Except.ok v ∧ v < 240 := by
  have h : map_touch_to_screen 1800 180 1800 240 = Except.ok 240 := by decide
  refine ⟨h, ?_⟩
  rintro ⟨v, hv, hlt⟩
  rw [h] at hv
  have hv2 : 240 = v := Except.ok.inj hv
  omega

/-- C1, amended: for 16-bit arguments with `raw_min < raw_max` the function
returns a value in the closed range `[0, screen_size]`; the value is strictly
below `screen_size` whenever `raw < raw_max` and `screen_size > 0`, and it is
`screen_size` itself for `raw ≥ raw_max` when the product fits in `int`. -/
theorem map_touch_to_screen_le_screen_size (raw raw_min raw_max S : Nat)
    (hmax : raw_max < 65536) (hS : S < 65536) (h : raw_min < raw_max) :
    ∃ v, map_touch_to_screen raw raw_min raw_max S = Except.ok v ∧ v ≤ S ∧
      (raw < raw_max → 0 < S → v < S) ∧
      (raw_max ≤ raw → (raw_max - raw_min) * S < 2147483648 → v = S) := by
  rw [map_unfold raw raw_min raw_max S h]
  refine ⟨_, rfl, ?_⟩
  have hxd := clamp_sub_le raw raw_min raw_max h
  by_cases hp : (clamp raw raw_min raw_max - raw_min) * S < 2147483648
  · rw [quot_small _ _ S hS hxd hp]
    refine ⟨Nat.div_le_of_le_mul (Nat.mul_le_mul_right S hxd), ?_, ?_⟩
    · intro hlt hS0
      apply Nat.div_lt_of_lt_mul
      apply Nat.mul_lt_mul_of_pos_right _ hS0
      unfold clamp
      split_ifs <;> omega
    · intro hge _
      have hc : clamp raw raw_min raw_max = raw_max := by
        unfold clamp
        split_ifs <;> omega
      rw [hc]
      exact Nat.mul_div_cancel_left S (by omega)
  · have hl := (quot_large _ (raw_max - raw_min) S hS hxd (by omega) (by omega)).2
    refine ⟨le_of_lt hl, fun _ _ => hl, ?_⟩
    intro hge hfit
    have hc : clamp raw raw_min raw_max = raw_max := by
      unfold clamp
      split_ifs <;> omega
    rw [hc] at hp
    omega

/-- Witness for C1 (amended): the largest screen size and the widest
calibration range, where the product leaves the range of `int`. -/
theorem map_touch_to_screen_le_screen_size_witness :
    ∃ v, map_touch_to_screen 65535 0 65535 65535 = Except.ok v ∧ v ≤ 65535 ∧
      (65535 < 65535 → 0 < 65535 → v < 65535) ∧
      (65535 ≤ 65535 → (65535 - 0) * 65535 < 2147483648 → v = 65535) :=
  map_touch_to_screen_le_screen_size 65535 0 65535 65535 (by decide) (by decide) (by decide)

/-- C2, as stated, fails: for `raw = 40000`, range `[0, 40000]` and screen size
60000 the product 2 400 000 000 does not fit in `int`; the function returns
18162 while the formula over the integers gives 60000. -/
theorem map_touch_to_screen_formula_fails :
    map_touch_to_screen 40000 0 40000 60000 = Except.ok 18162 ∧
      (clamp 40000 0 40000 - 0) * 60000 / (40000 - 0) = 60000 := by
  decide

/-- C2, amended: for `raw_min < raw_max`, a 16-bit screen size and a product
`(c - raw_min) * screen_size` that fits in `int` (at most 2^31 - 1), the
function returns `(c - raw_min) * screen_size / (raw_max - raw_min)` with
truncating division, `c` being `raw` clamped into `[raw_min, raw_max]`. -/
theorem map_touch_to_screen_formula (raw raw_min raw_max S : Nat) (hS : S < 65536)
    (h : raw_min < raw_max)
    (hp : (clamp raw raw_min raw_max - raw_min) * S < 2147483648) :
    map_touch_to_screen raw raw_min raw_max S =
      Except.ok ((clamp raw raw_min raw_max - raw_min) * S / (raw_max - raw_min)) := by
  rw [map_unfold raw raw_min raw_max S h,
    quot_small _ _ S hS (clamp_sub_le raw raw_min raw_max h) hp]

/-- Witness for C2 (amended): the X sample 980 of the end-to-end scenario. -/
theorem map_touch_to_screen_formula_witness :
    map_touch_to_screen 980 180 1800 240 =
      Except.ok ((clamp 980 180 1800 - 180) * 240 / (1800 - 180)) :=
  map_touch_to_screen_formula 980 180 1800 240 (by decide) (by decide) (by decide)

/-- C3: the function saturates outside the calibration range.  For
`raw_min < raw_max`, every `lo ≤ raw_min` is mapped like `raw_min`, namely to
0, and every `hi ≥ raw_max` is mapped like `raw_max`. -/
theorem map_touch_to_screen_saturates (lo hi raw_min raw_max S : Nat)
    (h : raw_min < raw_max) (hlo : lo ≤ raw_min) (hhi : raw_max ≤ hi) :
    map_touch_to_screen lo raw_min raw_max S = map_touch_to_screen raw_min raw_min raw_max S ∧
      map_touch_to_screen raw_min raw_min raw_max S = Except.ok 0 ∧
      map_touch_to_screen hi raw_min raw_max S = map_touch_to_screen raw_max raw_min raw_max S := by
  have c1 : clamp lo raw_min raw_max = raw_min := by
    unfold clamp
    split_ifs <;> omega
  have c2 : clamp raw_min raw_min raw_max = raw_min := by
    unfold clamp
    split_ifs <;> omega
  have c3 : clamp hi raw_min raw_max = raw_max := by
    unfold clamp
    split_ifs <;> omega
  have c4 : clamp raw_max raw_min raw_max = raw_max := by
    unfold clamp
    split_ifs <;> omega
  have hz : toU16 (Int.tdiv (wrap32 (((raw_min - raw_min : Nat) : Int) * (S : Int)))
      ((raw_max - raw_min : Nat) : Int)) = 0 := by
    have hw : wrap32 0 = 0 := by decide
    simp [hw, toU16]
  simp only [map_unfold _ raw_min raw_max S h, c1, c2, c3, c4, hz, and_self]

/-- Witness for C3: the clamping examples
`map(0, 180, 1800, 240) = map(180, 180, 1800, 240) = 0` and
`map(5000, 180, 1800, 240) = map(1800, 180, 1800, 240)`. -/
theorem map_touch_to_screen_saturates_witness :
    map_touch_to_screen 0 180 1800 240 = map_touch_to_screen 180 180 1800 240 ∧
      map_touch_to_screen 180 180 1800 240 = Except.ok 0 ∧
      map_touch_to_screen 5000 180 1800 240 = map_touch_to_screen 1800 180 1800 240 :=
  map_touch_to_screen_saturates 0 5000 180 1800 240 (by decide) (by decide) (by decide)

/-- C4, the code at `raw_max = raw_min = 300`: nothing is checked or reported,
the function goes on to the division and divides by zero. -/
theorem map_touch_to_screen_zero_divisor :
    map_touch_to_screen 500 300 300 240 = Except.error Fault.undefined_division_by_zero := by
  decide

/-! ## Touch sampler: lemmas -/

/-- Two bytes combine to a 12-bit value. -/
theorem combine_lt (b1 b2 : Nat) (h1 : b1 < 256) (h2 : b2 < 256) :
    ((b1 <<< 8) ||| b2) >>> 4 < 4096 := by
  have h : (b1 <<< 8) ||| b2 < 2 ^ 16 := by
    apply Nat.or_lt_two_pow
    · rw [Nat.shiftLeft_eq]
      omega
    · omega
  rw [Nat.shiftRight_eq_div_pow]
  omega

/-- The events of one `read_touch` call, by transfer status. -/
theorem read_touch_eq (k : XspiConsts) (env : Env) (command : Nat) (w : World) :
    read_touch k env command w =
      (sample_of k (env.transfer w.transfers),
        { trace := w.trace ++
            (if (env.transfer w.transfers).status ≠ k.XST_SUCCESS then
              [Event.SetSlaveSelect 0x02, Event.Usleep 3000,
                Event.Transfer [command % 256, 0, 0] 3,
                Event.XilPrintf "SPI Transfer failed! Status = %d\r\n"
                  [(env.transfer w.transfers).status]]
            else
              [Event.SetSlaveSelect 0x02, Event.Usleep 3000,
                Event.Transfer [command % 256, 0, 0] 3,
                Event.SetSlaveSelectReg (bnot32 0x00), Event.Usleep 3000])
          transfers := w.transfers + 1
          setopts := w.setopts
          ctrlreads := w.ctrlreads }) := by
  have hlt := combine_lt ((env.transfer w.transfers).rx1 % 256)
    ((env.transfer w.transfers).rx2 % 256) (Nat.mod_lt _ (by decide)) (Nat.mod_lt _ (by decide))
  have hmod : ((((env.transfer w.transfers).rx1 % 256) <<< 8) |||
      ((env.transfer w.transfers).rx2 % 256)) >>> 4 % 65536 =
      ((((env.transfer w.transfers).rx1 % 256) <<< 8) |||
      ((env.transfer w.transfers).rx2 % 256)) >>> 4 := Nat.mod_eq_of_lt (by omega)
  by_cases hs : (env.transfer w.transfers).status = k.XST_SUCCESS
  · simp [read_touch, sample_of, emit, hs, hmod]
  · simp [read_touch, sample_of, emit, hs]

/-- The events of `configSpi`: `XSpi_SetOptions` first, then calls none of
which begins an operation or touches the LCD. -/
theorem configSpi_eq (k : XspiConsts) (env : Env) (w : World) :
    ∃ cfg c, configSpi k env w =
        { trace := w.trace ++
            Event.SetOptions (k.XSP_MASTER_OPTION ||| k.XSP_MANUAL_SSELECT_OPTION) :: cfg
          transfers := w.transfers
          setopts := w.setopts + 1
          ctrlreads := c } ∧
      cfg.filter starts_operation = [] ∧ cfg.filter is_lcd_call = [] := by
  by_cases hs : env.setOptions w.setopts = k.XST_SUCCESS
  · refine ⟨[Event.GetControlReg,
      Event.SetControlReg (((env.controlReg w.ctrlreads % 4294967296) |||
        k.XSP_CR_ENABLE_MASK ||| k.XSP_CR_MASTER_MODE_MASK) &&&
        bnot32 k.XSP_CR_TRANS_INHIBIT_MASK),
      Event.Start, Event.IntrGlobalDisable], w.ctrlreads + 1, ?_, ?_, ?_⟩
    · simp [configSpi, emit, hs]
    · simp [starts_operation]
    · simp [is_lcd_call]
  · refine ⟨[Event.XilPrintf "Failed to set SPI options\n" []], w.ctrlreads, ?_, ?_, ?_⟩
    · simp [configSpi, emit, hs]
    · simp [starts_operation]
    · simp [is_lcd_call]

/-- The events of one `read_touch` call, whatever the status: one transfer of
the frame `{command, 0, 0}`, no LCD call, no reset. -/
theorem read_touch_trace (k : XspiConsts) (env : Env) (command : Nat) (w : World) :
    ∃ d, read_touch k env command w =
        (sample_of k (env.transfer w.transfers),
          { trace := w.trace ++ d
            transfers := w.transfers + 1
            setopts := w.setopts
            ctrlreads := w.ctrlreads }) ∧
      d.filter starts_operation = [Event.Transfer [command % 256, 0, 0] 3] ∧
      d.filter is_lcd_call = [] ∧ Event.Reset ∉ d := by
  refine ⟨_, read_touch_eq k env command w, ?_, ?_, ?_⟩
  · split_ifs <;> simp [starts_operation, bnot32]
  · split_ifs <;> simp [is_lcd_call]
  · split_ifs <;> simp

/-- The results of `is_touched` in terms of the two replies it consumes. -/
theorem is_touched_eq (k : XspiConsts) (env : Env) (w : World) :
    ∃ d, is_touched k env w =
        (decide (sample_of k (env.transfer w.transfers) > 10) &&
            decide (sample_of k (env.transfer (w.transfers + 1)) < 2000),
          sample_of k (env.transfer w.transfers),
          sample_of k (env.transfer (w.transfers + 1)),
          { trace := w.trace ++ d
            transfers := w.transfers + 2
            setopts := w.setopts
            ctrlreads := w.ctrlreads }) ∧
      d.filter starts_operation =
        [Event.Transfer [CMD_READ_Z1, 0, 0] 3, Event.Transfer [CMD_READ_Z2, 0, 0] 3] ∧
      d.filter is_lcd_call = [] ∧ Event.Reset ∉ d := by
  obtain ⟨d1, h1, o1, l1, r1⟩ := read_touch_trace k env CMD_READ_Z1 w
  obtain ⟨d2, h2, o2, l2, r2⟩ := read_touch_trace k env CMD_READ_Z2
    { trace := w.trace ++ d1, transfers := w.transfers + 1, setopts := w.setopts,
      ctrlreads := w.ctrlreads }
  refine ⟨d1 ++ d2, ?_, ?_, ?_, ?_⟩
  · simp only [is_touched, h1, h2, List.append_assoc]
  · rw [List.filter_append, o1, o2]
    simp [CMD_READ_Z1, CMD_READ_Z2]
  · rw [List.filter_append, l1, l2]
    rfl
  · simp [r1, r2]

/-- The results of `get_touch_coordinates` in terms of the two replies it
consumes; the call ends with `XSpi_Reset` and `configSpi`. -/
theorem get_touch_coordinates_eq (k : XspiConsts) (env : Env) (w : World) :
    ∃ d cfg c, get_touch_coordinates k env w =
        (sample_of k (env.transfer w.transfers),
          sample_of k (env.transfer (w.transfers + 1)),
          { trace := w.trace ++ (d ++ Event.Reset ::
              Event.SetOptions (k.XSP_MASTER_OPTION ||| k.XSP_MANUAL_SSELECT_OPTION) :: cfg)
            transfers := w.transfers + 2
            setopts := w.setopts + 1
            ctrlreads := c }) ∧
      d.filter starts_operation =
        [Event.Transfer [CMD_READ_X, 0, 0] 3, Event.Transfer [CMD_READ_Y, 0, 0] 3] ∧
      d.filter is_lcd_call = [] ∧ Event.Reset ∉ d ∧
      cfg.filter starts_operation = [] ∧ cfg.filter is_lcd_call = [] := by
  obtain ⟨d1, h1, o1, l1, r1⟩ := read_touch_trace k env CMD_READ_X w
  obtain ⟨d2, h2, o2, l2, r2⟩ := read_touch_trace k env CMD_READ_Y
    { trace := w.trace ++ d1, transfers := w.transfers + 1, setopts := w.setopts,
      ctrlreads := w.ctrlreads }
  obtain ⟨cfg, c, h3, o3, l3⟩ := configSpi_eq k env
    { trace := w.trace ++ d1 ++ d2 ++ [Event.Reset], transfers := w.transfers + 1 + 1,
      setopts := w.setopts, ctrlreads := w.ctrlreads }
  refine ⟨d1 ++ d2, cfg, c, ?_, ?_, ?_, ?_, o3, l3⟩
  · simp only [get_touch_coordinates, h1, h2, emit, h3]
    simp [List.append_assoc]
  · rw [List.filter_append, o1, o2]
    simp [CMD_READ_X, CMD_READ_Y]
  · rw [List.filter_append, l1, l2]
    rfl
  · simp [r1, r2]

/-- The events of `printToScr`: the LCD is selected, the two mapped values are
drawn, and the call ends with `XSpi_Reset` and `configSpi`. -/
theorem printToScr_eq (k : XspiConsts) (env : Env) (x y : Nat) (w : World) :
    ∃ sx sy cfg w2, map_touch_to_screen x x_min x_max SCREEN_WIDTH = Except.ok sx ∧
      map_touch_to_screen y y_min y_max SCREEN_HEIGHT = Except.ok sy ∧
      printToScr k env x y w = Except.ok w2 ∧
      w2.trace = w.trace ++ (Event.SetSlaveSelectReg (bnot32 0x01) :: lcd_calls sx sy ++
            Event.Reset ::
            Event.SetOptions (k.XSP_MASTER_OPTION ||| k.XSP_MANUAL_SSELECT_OPTION) :: cfg) ∧
      cfg.filter starts_operation = [] ∧ cfg.filter is_lcd_call = [] := by
  obtain ⟨sx, hx⟩ : ∃ sx, map_touch_to_screen x x_min x_max SCREEN_WIDTH = Except.ok sx :=
    ⟨_, map_unfold x x_min x_max SCREEN_WIDTH (by decide)⟩
  obtain ⟨sy, hy⟩ : ∃ sy, map_touch_to_screen y y_min y_max SCREEN_HEIGHT = Except.ok sy :=
    ⟨_, map_unfold y y_min y_max SCREEN_HEIGHT (by decide)⟩
  obtain ⟨cfg, c, h3, o3, l3⟩ := configSpi_eq k env
    { trace := w.trace ++ (Event.SetSlaveSelectReg (bnot32 0x01) :: lcd_calls sx sy ++
        [Event.Reset]), transfers := w.transfers, setopts := w.setopts, ctrlreads := w.ctrlreads }
  refine ⟨sx, sy, cfg, configSpi k env
    { trace := w.trace ++ (Event.SetSlaveSelectReg (bnot32 0x01) :: lcd_calls sx sy ++
        [Event.Reset]), transfers := w.transfers, setopts := w.setopts,
      ctrlreads := w.ctrlreads }, hx, hy, ?_, ?_, o3, l3⟩
  · simp only [printToScr, hx, hy, emit, bind, Except.bind, pure, Except.pure]
    simp only [lcd_calls, List.append_assoc, List.singleton_append, List.cons_append,
      List.nil_append]
  · rw [h3]
    simp [lcd_calls]

/-- One pass of the polling loop always completes; it draws exactly when the
two pressure samples pass the test, and then draws the mapped X and Y samples. -/
theorem main_loop_body_eq (k : XspiConsts) (env : Env) (l : Locals) (w : World) :
    ∃ sx sy l2 w2 d,
      map_touch_to_screen (sample_of k (env.transfer (w.transfers + 2))) x_min x_max
        SCREEN_WIDTH = Except.ok sx ∧
      map_touch_to_screen (sample_of k (env.transfer (w.transfers + 3))) y_min y_max
        SCREEN_HEIGHT = Except.ok sy ∧
      main_loop_body k env l w = Except.ok (l2, w2) ∧
      w2.trace = w.trace ++ d ∧
      l2.z1 = sample_of k (env.transfer w.transfers) ∧
      l2.z2 = sample_of k (env.transfer (w.transfers + 1)) ∧
      d.filter is_lcd_call =
        (if 10 < sample_of k (env.transfer w.transfers) ∧
            sample_of k (env.transfer (w.transfers + 1)) < 2000
          then lcd_calls sx sy else []) := by
  obtain ⟨d1, h1, -, l1, -⟩ := is_touched_eq k env w
  rcases hit : is_touched k env w with ⟨b, z1, z2, W1⟩
  rw [hit] at h1
  simp only [Prod.mk.injEq] at h1
  obtain ⟨hb, hz1, hz2, hW1⟩ := h1
  obtain ⟨d2, cfg2, c2, h2, -, l2, -, -, lc2⟩ := get_touch_coordinates_eq k env W1
  rcases hg : get_touch_coordinates k env W1 with ⟨X, Y, W2⟩
  rw [hg] at h2
  simp only [Prod.mk.injEq] at h2
  obtain ⟨hX, hY, hW2⟩ := h2
  obtain ⟨sx, sy, cfg3, W3, hx, hy, h3, h3t, -, lc3⟩ := printToScr_eq k env X Y
    (emit (Event.Printf "Touch detected: X = %d, Y = %d, Z1 = %d, Z2 = %d\n"
      [(X : Int), (Y : Int), (z1 : Int), (z2 : Int)]) W2)
  have hW1t : W1.transfers = w.transfers + 2 := by rw [hW1]
  have hW1tr : W1.trace = w.trace ++ d1 := by rw [hW1]
  rw [hW1t] at hX hY
  rw [hX] at hx
  rw [hY] at hy
  refine ⟨sx, sy, ?_⟩
  by_cases ht : 10 < sample_of k (env.transfer w.transfers) ∧
      sample_of k (env.transfer (w.transfers + 1)) < 2000
  · have hbt : b = true := by
      rw [hb]
      simpa using ht
    refine ⟨{ x := X, y := Y, z1 := z1, z2 := z2 }, W3,
      d1 ++ (d2 ++ Event.Reset ::
        Event.SetOptions (k.XSP_MASTER_OPTION ||| k.XSP_MANUAL_SSELECT_OPTION) :: cfg2) ++
      [Event.Printf "Touch detected: X = %d, Y = %d, Z1 = %d, Z2 = %d\n"
        [(X : Int), (Y : Int), (z1 : Int), (z2 : Int)]] ++
      (Event.SetSlaveSelectReg (bnot32 0x01) :: lcd_calls sx sy ++ Event.Reset ::
        Event.SetOptions (k.XSP_MASTER_OPTION ||| k.XSP_MANUAL_SSELECT_OPTION) :: cfg3),
      hx, hy, ?_, ?_, hz1, hz2, ?_⟩
    · simp only [main_loop_body, hit, hbt, if_true, hg, h3, bind, Except.bind, pure,
        Except.pure]
    · rw [h3t]
      simp only [emit, hW2, hW1tr, List.append_assoc]
    · simp only [ht, and_self, if_true, List.filter_append, l1, l2, List.nil_append]
      simp [is_lcd_call, lcd_calls, lc2, lc3, bnot32]
  · have hbf : b = false := by
      rw [hb]
      simpa using ht
    refine ⟨{ l with z1 := z1, z2 := z2 },
      emit (Event.Printf "No touch detected.\n" []) W1,
      d1 ++ [Event.Printf "No touch detected.\n" []], hx, hy, ?_, ?_, hz1, hz2, ?_⟩
    · simp only [main_loop_body, hit, hbf, pure, Except.pure]
      rfl
    · simp only [emit, hW1tr, List.append_assoc]
    · simp only [ht, if_false, List.filter_append, l1, List.nil_append]
      simp [is_lcd_call]

/-! ## Touch sampler: properties -/

/-- C5: `is_touched` answers true exactly when the first pressure sample is
above 10 and the second below 2000; the two samples it hands back are the ones
read with the commands `CMD_READ_Z1` and `CMD_READ_Z2`, in this order.  Over
the boundary table `{10, 11} x {1999, 2000}` only `(11, 1999)` is a touch. -/
theorem is_touched_iff_thresholds :
    (∀ (k : XspiConsts) (env : Env) (w : World),
      ((is_touched k env w).1 = true ↔
        (is_touched k env w).2.1 > 10 ∧ (is_touched k env w).2.2.1 < 2000) ∧
      (is_touched k env w).2.1 = sample_of k (env.transfer w.transfers) ∧
      (is_touched k env w).2.2.1 = sample_of k (env.transfer (w.transfers + 1)) ∧
      ∃ d, (is_touched k env w).2.2.2.trace = w.trace ++ d ∧
        d.filter starts_operation =
          [Event.Transfer [0xB0, 0, 0] 3, Event.Transfer [0xC0, 0, 0] 3]) ∧
    ((is_touched xilinx (env_of_samples [10, 1999]) w0).1,
        (is_touched xilinx (env_of_samples [10, 1999]) w0).2.1,
        (is_touched xilinx (env_of_samples [10, 1999]) w0).2.2.1) = (false, 10, 1999) ∧
    ((is_touched xilinx (env_of_samples [11, 1999]) w0).1,
        (is_touched xilinx (env_of_samples [11, 1999]) w0).2.1,
        (is_touched xilinx (env_of_samples [11, 1999]) w0).2.2.1) = (true, 11, 1999) ∧
    ((is_touched xilinx (env_of_samples [10, 2000]) w0).1,
        (is_touched xilinx (env_of_samples [10, 2000]) w0).2.1,
        (is_touched xilinx (env_of_samples [10, 2000]) w0).2.2.1) = (false, 10, 2000) ∧
    ((is_touched xilinx (env_of_samples [11, 2000]) w0).1,
        (is_touched xilinx (env_of_samples [11, 2000]) w0).2.1,
        (is_touched xilinx (env_of_samples [11, 2000]) w0).2.2.1) = (false, 11, 2000) := by
  refine ⟨?_, by decide, by decide, by decide, by decide⟩
  intro k env w
  obtain ⟨d, h, o, -, -⟩ := is_touched_eq k env w
  rw [h]
  refine ⟨?_, rfl, rfl, d, rfl, ?_⟩
  · simp
  · rw [o]
    rfl

/-- C6: after a successful transfer that received the bytes `b0 b1 b2`,
`read_touch` returns `((b1 << 8) | b2) >> 4`, whatever the command and
whatever `b0`, and the value is at most 4095. -/
theorem read_touch_decodes (k : XspiConsts) (env : Env) (command : Nat) (w : World)
    (b0 b1 b2 : Nat) (h1 : b1 < 256) (h2 : b2 < 256)
    (hr : env.transfer w.transfers =
      { status := k.XST_SUCCESS, rx0 := b0, rx1 := b1, rx2 := b2 }) :
    (read_touch k env command w).1 = ((b1 <<< 8) ||| b2) >>> 4 ∧
      (read_touch k env command w).1 ≤ 4095 := by
  have hv : (read_touch k env command w).1 = ((b1 <<< 8) ||| b2) >>> 4 := by
    rw [read_touch_eq]
    simp [sample_of, hr, Nat.mod_eq_of_lt h1, Nat.mod_eq_of_lt h2]
  refine ⟨hv, ?_⟩
  rw [hv]
  have := combine_lt b1 b2 h1 h2
  omega

/-- Witness for C6: the bytes `0x3D 0x40` decode to 980. -/
theorem read_touch_decodes_witness :
    (read_touch xilinx (env_of_samples [980]) CMD_READ_X w0).1 = ((61 <<< 8) ||| 64) >>> 4 ∧
      (read_touch xilinx (env_of_samples [980]) CMD_READ_X w0).1 ≤ 4095 :=
  read_touch_decodes xilinx (env_of_samples [980]) CMD_READ_X w0 0 61 64 (by decide)
    (by decide) (by decide)

/-- C7: when the driver reports a failed transfer, `read_touch` returns the
sample 0 whatever the receive buffer holds, and the failure goes no further:
the pass of the polling loop that began with this read completes, with
`z1 = 0`. -/
theorem read_touch_failure_returns_zero (k : XspiConsts) (env : Env) (command : Nat)
    (w : World) (hfail : (env.transfer w.transfers).status ≠ k.XST_SUCCESS) :
    (read_touch k env command w).1 = 0 ∧
      ∀ l : Locals, ∃ l2 w2, main_loop_body k env l w = Except.ok (l2, w2) ∧ l2.z1 = 0 := by
  have hs : sample_of k (env.transfer w.transfers) = 0 := by
    simp [sample_of, hfail]
  constructor
  · rw [read_touch_eq]
    exact hs
  · intro l
    obtain ⟨-, -, l2, w2, -, -, -, hb, -, hz1, -, -⟩ := main_loop_body_eq k env l w
    exact ⟨l2, w2, hb, by rw [hz1, hs]⟩

/-- Witness for C7: a transfer that fails with
status 21 and leaves `0xAB 0xCD 0xEF` in the receive buffer. -/
theorem read_touch_failure_returns_zero_witness :
    (read_touch xilinx env_failing CMD_READ_Z1 w0).1 = 0 ∧
      ∀ l : Locals, ∃ l2 w2,
        main_loop_body xilinx env_failing l w0 = Except.ok (l2, w2) ∧ l2.z1 = 0 :=
  read_touch_failure_returns_zero xilinx env_failing CMD_READ_Z1 w0 (by decide)

/-- C9, the code on a failed transfer: `read_touch` returns after the print;
the last slave-select call it made is the selection of the touch controller,
and no write of `~0x00` to the slave-select register follows. -/
theorem read_touch_failure_leaves_selected :
    read_touch xilinx env_failing CMD_READ_X w0 =
      (0, { trace := [Event.SetSlaveSelect 0x02, Event.Usleep 3000,
              Event.Transfer [0xD0, 0, 0] 3,
              Event.XilPrintf "SPI Transfer failed! Status = %d\r\n" [21]]
            transfers := 1
            setopts := 0
            ctrlreads := 0 }) ∧
      Event.SetSlaveSelectReg (bnot32 0x00) ∉
        (read_touch xilinx env_failing CMD_READ_X w0).2.trace := by
  decide

/-! ## Polling loop: properties -/

/-- C8: one pass of the polling loop, for the raw reading `z1, z2, x, y` the
touch controller delivers to the four reads.  The pass completes; its LCD calls
are those of a display update of `map(x, 180, 1800, 240)` and
`map(y, 200, 1900, 320)` when `z1 > 10` and `z2 < 2000`, and there is none
otherwise.  For `x = 980, y = 1050, z1 = 50, z2 = 100` the texts drawn are
`X: 118` and `Y: 160`. -/
theorem main_loop_presents_iff_touched :
    (∀ (k : XspiConsts) (env : Env) (l : Locals) (w : World),
      ∃ sx sy l2 w2 d,
        map_touch_to_screen (sample_of k (env.transfer (w.transfers + 2))) 180 1800 240 =
          Except.ok sx ∧
        map_touch_to_screen (sample_of k (env.transfer (w.transfers + 3))) 200 1900 320 =
          Except.ok sy ∧
        main_loop_body k env l w = Except.ok (l2, w2) ∧
        w2.trace = w.trace ++ d ∧
        d.filter is_lcd_call =
          (if sample_of k (env.transfer w.transfers) > 10 ∧
              sample_of k (env.transfer (w.transfers + 1)) < 2000
            then
              [Event.SetColor 0 0 0, Event.FillRect 10 10 150 40, Event.SetColor 0 255 0,
                Event.SetColorBg 0 0 0, Event.LcdPrint (sprintf_d "X: " sx) 20 20,
                Event.SetColor 0 0 0, Event.FillRect 40 40 150 60, Event.SetColor 0 255 0,
                Event.SetColorBg 0 0 0, Event.LcdPrint (sprintf_d "Y: " sy) 20 40]
            else [])) ∧
    (main_loop_body xilinx (env_of_samples [50, 100, 980, 1050])
        { x := 0, y := 0, z1 := 0, z2 := 0 } w0).toOption.map
      (fun r => (r.1, r.2.trace.filter is_lcd_call)) =
      some ({ x := 980, y := 1050, z1 := 50, z2 := 100 },
        [Event.SetColor 0 0 0, Event.FillRect 10 10 150 40, Event.SetColor 0 255 0,
          Event.SetColorBg 0 0 0, Event.LcdPrint "X: 118" 20 20,
          Event.SetColor 0 0 0, Event.FillRect 40 40 150 60, Event.SetColor 0 255 0,
          Event.SetColorBg 0 0 0, Event.LcdPrint "Y: 160" 20 40]) := by
  refine ⟨?_, by decide⟩
  intro k env l w
  obtain ⟨sx, sy, l2, w2, d, hx, hy, hb, ht, -, -, hd⟩ := main_loop_body_eq k env l w
  exact ⟨sx, sy, l2, w2, d, hx, hy, hb, ht, hd⟩

/-- C10, as stated, fails: the two exchanges of `is_touched` follow each other
with no `XSpi_Reset` anywhere in between or after, so the trace of a pass of
the polling loop breaks the discipline (which the trace of a display update
alone keeps). -/
theorem is_touched_exchanges_without_reset :
    (is_touched xilinx (env_of_samples [50, 100, 980, 1050]) w0).2.2.2.trace =
      [Event.SetSlaveSelect 0x02, Event.Usleep 3000, Event.Transfer [0xB0, 0, 0] 3,
        Event.SetSlaveSelectReg (bnot32 0x00), Event.Usleep 3000,
        Event.SetSlaveSelect 0x02, Event.Usleep 3000, Event.Transfer [0xC0, 0, 0] 3,
        Event.SetSlaveSelectReg (bnot32 0x00), Event.Usleep 3000] ∧
    reset_discipline false
      (is_touched xilinx (env_of_samples [50, 100, 980, 1050]) w0).2.2.2.trace = false ∧
    (main_loop_body xilinx (env_of_samples [50, 100, 980, 1050])
        { x := 0, y := 0, z1 := 0, z2 := 0 } w0).toOption.map
      (fun r => reset_discipline false r.2.trace) = some false ∧
    (printToScr xilinx (env_of_samples []) 980 1050 w0).toOption.map
      (fun r => reset_discipline false r.trace) = some true := by
  decide

/-- C10, amended: a position read (`get_touch_coordinates`: the X exchange,
then the Y exchange) and a display update (`printToScr`) each end with
`XSpi_Reset` followed by `configSpi`, and `configSpi` begins no exchange and
no display update; so a reset-and-reconfigure cycle follows each of them
before the next exchange or display update begins. -/
theorem reset_and_reconfigure_ends_operations (k : XspiConsts) (env : Env) (w : World)
    (x y : Nat) :
    (∃ d cfg, (get_touch_coordinates k env w).2.2.trace =
        w.trace ++ d ++ Event.Reset ::
          Event.SetOptions (k.XSP_MASTER_OPTION ||| k.XSP_MANUAL_SSELECT_OPTION) :: cfg ∧
      d.filter starts_operation =
        [Event.Transfer [0xD0, 0, 0] 3, Event.Transfer [0x90, 0, 0] 3] ∧
      Event.Reset ∉ d ∧ cfg.filter starts_operation = []) ∧
    (∃ w2 d cfg, printToScr k env x y w = Except.ok w2 ∧
      w2.trace = w.trace ++ d ++ Event.Reset ::
          Event.SetOptions (k.XSP_MASTER_OPTION ||| k.XSP_MANUAL_SSELECT_OPTION) :: cfg ∧
      d.filter starts_operation = [Event.SetSlaveSelectReg (bnot32 0x01)] ∧
      Event.Reset ∉ d ∧ cfg.filter starts_operation = []) := by
  constructor
  · obtain ⟨d, cfg, c, h, o, -, r, oc, -⟩ := get_touch_coordinates_eq k env w
    refine ⟨d, cfg, ?_, ?_, r, oc⟩
    · rw [h]
      simp only [List.append_assoc]
    · rw [o]
      rfl
  · obtain ⟨sx, sy, cfg, w2, -, -, h, ht, oc, -⟩ := printToScr_eq k env x y w
    refine ⟨w2, Event.SetSlaveSelectReg (bnot32 0x01) :: lcd_calls sx sy, cfg, h, ?_, ?_, ?_,
      oc⟩
    · rw [ht]
      simp only [List.append_assoc]
    · simp [lcd_calls, starts_operation]
    · simp [lcd_calls]

end XPT2046
